import Mathlib

/-!
Verification of the github-repo-analyzer pipeline (src/main.py, src/github_agent.py).

The development shallowly embeds the analysis-and-reporting pipeline of the
current iteration of the code (`src/main.py`, imported by `src/github_agent.py`).
External collaborators (GitHub API fetches, radon's `cc_visit`/`h_visit`,
pylint, the `markdown` converter, the wall clock) are modelled as explicit
oracle parameters; the filesystem effects relevant to the claims (the pylint
temp file, report writes, output-directory creation) are modelled as explicit
state threaded through the functions.

Conventions:
- A Python function that can raise, where the exception is caught by a caller
  and turned into `None`, is modelled as returning `Option`.
- Python string truthiness (`if s:`) is `!s.isEmpty`; `None` is `Option.none`.
- Halstead floats are modelled as rationals; `int` 0 and float 0.0 coincide.
- `datetime.now()` is modelled by a `Timestamp` parameter held constant over a
  run, as the claims stipulate ("timestamp held constant").
-/

namespace GRA

/-- Python's `str.endswith`, modelled on the character list (the character
list form evaluates by kernel reduction). -/
def strEndsWith (s suffix : String) : Bool :=
  suffix.data.isSuffixOf s.data

/-- Number of positions of `l` at which the pattern `pat` starts. -/
def occurrences (pat : List Char) : List Char → Nat
  | [] => 0
  | c :: rest => (if pat.isPrefixOf (c :: rest) then 1 else 0) + occurrences pat rest

/-- Repository metadata plus entry listing as assembled by `get_repo_info`
(src/main.py lines 92–98): `description` and `language` come from the GitHub
payload and may be JSON null (`Option`). -/
structure RepoInfo where
  name : String
  description : Option String
  language : Option String
  stars : Nat
  contents : List String
deriving Repr, DecidableEq

/-- One entry of radon's `cc_visit` result: a symbol name and its cyclomatic
complexity score (src/main.py lines 185–190). -/
structure CCEntry where
  name : String
  complexity : Nat
deriving Repr, DecidableEq

/-- Outcome of the `cc_visit` call (src/main.py line 139): it either raises —
caught by the enclosing `try`, making the whole analyze call return `None`
(lines 195–197) — or returns the list of per-symbol entries. -/
inductive CCOutcome where
  | raises
  | ok (entries : List CCEntry)
deriving Repr, DecidableEq

/-- Outcome of the `h_visit` call (src/main.py line 147), covering the dynamic
cases the code distinguishes at lines 149–167: the call raises; it returns a
list (the code then either takes the empty-list branch, or — for a non-empty
list — evaluates `halstead_metrics.volume` on a list, which raises
`AttributeError` and lands in the `except` at line 168); or it returns an
object whose `volume`/`difficulty`/`effort` attributes are read with
`getattr(_, _, 0)`, `none` meaning the attribute is missing. -/
inductive HalsteadOutcome where
  | raises
  | retList (l : List Unit)
  | retObj (volume difficulty effort : Option ℚ)
deriving Repr, DecidableEq

/-- The volume/difficulty/effort triple of a `MetricRecord`. -/
structure HalsteadTriple where
  volume : ℚ
  difficulty : ℚ
  effort : ℚ
deriving Repr, DecidableEq

/-- The `halstead_data` value computed at src/main.py lines 146–174 from the
engine's outcome. Every failure path (the call raising, the empty list at
lines 156–161, the non-empty list whose `.volume` access raises into the
`except` at lines 168–174) yields the zero triple; an object outcome reads
each attribute with default 0 (lines 162–167). -/
def halsteadData : HalsteadOutcome → HalsteadTriple
  | .raises => ⟨0, 0, 0⟩
  | .retList [] => ⟨0, 0, 0⟩
  | .retList (_ :: _) => ⟨0, 0, 0⟩
  | .retObj v d e => ⟨v.getD 0, d.getD 0, e.getD 0⟩

/-- The failure cases of the volume-metrics step named by the spec: the engine
call raising, or returning an empty/ambiguous (list) result, or an object with
none of the three attributes present. -/
def halsteadFailed : HalsteadOutcome → Bool
  | .raises => true
  | .retList _ => true
  | .retObj v d e => v.isNone && (d.isNone && e.isNone)

/-- Outcome of the pylint run `lint.Run([f'temp_{filename}'], exit=False)`
(src/main.py line 215): it either completes with the captured stdout text, or
raises with a message rendered into the fallback string at line 229. -/
inductive LintOutcome where
  | ok (output : String)
  | raises (msg : String)
deriving Repr, DecidableEq

/-- Record the creation of a file in the transient-file state (the
`open(f'temp_{filename}', 'w')` write at src/main.py lines 203–204). -/
def fsAdd (fs : List String) (n : String) : List String :=
  if fs.contains n then fs else fs ++ [n]

/-- Record the removal of a file (`os.remove` at src/main.py line 224). -/
def fsRemove (fs : List String) (n : String) : List String :=
  fs.filter (fun m => !(m == n))

/-- `analyze_with_pylint` (src/main.py lines 199–229), with the set of
transient files on disk threaded explicitly. The function writes
`temp_{filename}`, runs pylint, and — only on the success path — removes the
temp file before returning the captured output. If the pylint run raises, the
`except` at lines 227–229 returns the fallback string; no cleanup runs on that
path (there is no `finally`). -/
def analyze_with_pylint (temps : List String) (filename : String)
    (run : LintOutcome) : String × List String :=
  let tempName := "temp_" ++ filename
  let temps1 := fsAdd temps tempName
  match run with
  | .ok output => (output, fsRemove temps1 tempName)
  | .raises msg => ("Unable to perform Pylint analysis: " ++ msg, temps1)

/-- The per-file metrics record returned by `analyze_code_complexity`
(src/main.py lines 184–193). -/
structure AnalysisRecord where
  cyclomatic_complexity : List CCEntry
  halstead_metrics : HalsteadTriple
  pylint_issues : String
deriving Repr, DecidableEq

/-- The three metric engines consumed per file, as oracle functions of the
file text (and, for pylint, the file name). -/
structure Engines where
  cc : String → CCOutcome
  halstead : String → HalsteadOutcome
  lint : String → String → LintOutcome

/-- `analyze_code_complexity` (src/main.py lines 131–197). The `cc_visit`
call runs first (line 139); if it raises, the enclosing `try`/`except`
(lines 195–197) — and the `@error_handler` decorator — turn the call into
`None`, before the Halstead or pylint steps run. Otherwise the Halstead step
(lines 146–174) and the pylint step (lines 178–182, whose own `except` is
unreachable because `analyze_with_pylint` catches every exception itself)
each degrade independently, and the populated record is returned. -/
def analyze_code_complexity (eng : Engines) (temps : List String)
    (fileContent filename : String) : Option AnalysisRecord × List String :=
  match eng.cc fileContent with
  | .raises => (none, temps)
  | .ok entries =>
    let hd := halsteadData (eng.halstead fileContent)
    let p := analyze_with_pylint temps filename (eng.lint fileContent filename)
    (some { cyclomatic_complexity := entries, halstead_metrics := hd,
            pylint_issues := p.1 }, p.2)

/-- The wall clock, held constant over one run. The code calls
`datetime.now().strftime(...)` at three sites in `generate_markdown_report`
(lines 238, 277, 283) with two format strings; both renderings are carried. -/
structure Timestamp where
  human : String
  compact : String
deriving Repr, DecidableEq

/-- Python's f-string rendering of a value that may be `None`: the dict keys
`description` and `language` are always present (set at src/main.py lines
92–98), so `repo_info.get('description', 'No description')` returns the stored
value even when it is `None`, which an f-string renders as the text `None`. -/
def pyOptStr : Option String → String
  | none => "None"
  | some s => s

/-- Python's `{x:.2f}` formatting of a non-negative numeric value: the
hundredths count `m = round(q * 100)` computed on the exact rational as
`(200 * num + den) / (2 * den)` in integer arithmetic (floor of
`100q + 1/2`), printed with a two-digit fraction. Python rounds the nearest
binary float half-to-even; on the non-tie values appearing in this
development the two roundings coincide. -/
def formatFix2 (q : ℚ) : String :=
  let m : Nat := (200 * q.num.toNat + q.den) / (2 * q.den)
  toString (m / 100) ++ "." ++ (if m % 100 < 10 then "0" else "") ++ toString (m % 100)

/-- The overview part of the markdown report (src/main.py lines 233–240). -/
def reportHeader (info : RepoInfo) (ts : Timestamp) : String :=
  "# Repository Analysis Report: " ++ info.name ++ "\n\n" ++
  "## Repository Overview\n" ++
  "- **Description**: " ++ pyOptStr info.description ++ "\n" ++
  "- **Primary Language**: " ++ pyOptStr info.language ++ "\n" ++
  "- **Stars**: " ++ toString info.stars ++ "\n\n" ++
  "- **Analysis Date**: " ++ ts.human ++ "\n\n" ++
  "## Code Analysis Details\n"

/-- One per-file section of the report (src/main.py lines 243–272). The
complexity subsection prints one line per symbol, or the placeholder when the
list is empty (falsy). The Halstead subsection is unconditional: the
`halstead_data` dict always has three keys, so `analysis.get('halstead_metrics')`
is always truthy and the `else` at line 261 is dead. The diagnostics
subsection fences the pylint text, or prints the placeholder when it is empty
(falsy). -/
def fileSection (filename : String) (a : AnalysisRecord) : String :=
  "### File: " ++ filename ++ "\n" ++
  "#### Cyclomatic Complexity\n" ++
  (if a.cyclomatic_complexity.isEmpty then "- No complexity analysis available\n"
   else String.join (a.cyclomatic_complexity.map
     (fun e => "- **" ++ e.name ++ "**: " ++ toString e.complexity ++ " complexity\n"))) ++
  "#### Halstead Metrics\n" ++
  "- **Volume**: " ++ formatFix2 a.halstead_metrics.volume ++ "\n" ++
  "- **Difficulty**: " ++ formatFix2 a.halstead_metrics.difficulty ++ "\n" ++
  "- **Effort**: " ++ formatFix2 a.halstead_metrics.effort ++ "\n" ++
  "#### Code Quality Issues\n" ++
  (if a.pylint_issues.isEmpty then "- No significant issues detected\n"
   else "```\n" ++ a.pylint_issues ++ "\n```\n") ++
  "\n---\n"

/-- The self-contained HTML document written at src/main.py lines 286–302,
wrapping the converted markdown; whitespace mirrors the Python triple-quoted
f-string, and the CSS braces are the `\x7b\x7d` pairs of the doubled braces in
the source. -/
def htmlWrap (htmlContent : String) : String :=
  "\n            <!DOCTYPE html>\n            <html>\n            <head>\n" ++
  "                <title>Repository Analysis Report</title>\n" ++
  "                <style>\n" ++
  "                    body \x7b font-family: Arial, sans-serif; line-height: 1.6; max-width: 800px; margin: 0 auto; padding: 20px; \x7d\n" ++
  "                    h1, h2, h3 \x7b color: #333; \x7d\n" ++
  "                    code \x7b background-color: #f4f4f4; padding: 2px 4px; \x7d\n" ++
  "                </style>\n            </head>\n            <body>\n" ++
  "                " ++ htmlContent ++ "\n            </body>\n            </html>\n            "

/-- `os.makedirs(d, exist_ok=ok)` over a directory state: creating a missing
directory adds it; an existing directory raises `FileExistsError` only when
`exist_ok` is false. The code always passes `exist_ok=True` (line 276). -/
def os_makedirs (exist_ok : Bool) (dirs : List String) (d : String) :
    Except String (List String) :=
  if dirs.contains d then
    if exist_ok then .ok dirs else .error "FileExistsError"
  else .ok (dirs ++ [d])

/-- How `generate_markdown_report` terminates: it can raise (no reachable
path does), fall off the end of the per-file loop returning Python `None`
(exactly when `file_analyses` is empty), or hit the `return` at line 304. -/
inductive GenResult where
  | raised
  | noneReturned
  | returned (mdPath htmlPath : String)
deriving Repr, DecidableEq

/-- Result of `generate_markdown_report`: termination mode, the `(path, text)`
writes performed, and the directory state afterward. -/
structure GenOutput where
  res : GenResult
  writes : List (String × String)
  dirs : List String
deriving Repr, DecidableEq

/-- Report file path: `os.path.join('repository_analysis', f"{name}_analysis_{ts}{ext}")`
(src/main.py lines 275–283). -/
def reportFileName (info : RepoInfo) (ts : Timestamp) (ext : String) : String :=
  "repository_analysis/" ++ info.name ++ "_analysis_" ++ ts.compact ++ ext

/-- The body of the `for filename, analysis in file_analyses.items():` loop of
`generate_markdown_report` (src/main.py lines 242–304). The save-and-convert
block (lines 274–304) is indented inside the loop, and the
`return output_file, html_output` at line 304 sits inside the
`with open(html_output, ...)` block of the FIRST iteration — so the function
returns during the first iteration and the remaining analyses (`_rest`) are
never visited. An empty mapping falls off the loop and returns Python `None`
with no writes. -/
def reportBody (conv : String → String) (info : RepoInfo) (ts : Timestamp)
    (dirs : List String) (report : String) :
    List (String × AnalysisRecord) → GenOutput
  | [] => { res := .noneReturned, writes := [], dirs := dirs }
  | (filename, a) :: _rest =>
    let report := report ++ fileSection filename a
    match os_makedirs true dirs "repository_analysis" with
    | .error _ => { res := .raised, writes := [], dirs := dirs }
    | .ok dirs1 =>
      let mdPath := reportFileName info ts ".md"
      let htmlPath := reportFileName info ts ".html"
      { res := .returned mdPath htmlPath,
        writes := [(mdPath, report), (htmlPath, htmlWrap (conv report))],
        dirs := dirs1 }

/-- `generate_markdown_report` (src/main.py lines 231–304): builds the
overview, then runs the per-file loop; `conv` is the external
`markdown.markdown` converter. -/
def generate_markdown_report (conv : String → String) (info : RepoInfo)
    (analyses : List (String × AnalysisRecord)) (ts : Timestamp)
    (dirs : List String) : GenOutput :=
  reportBody conv info ts dirs (reportHeader info ts) analyses

/-- The markdown text written by a report generation: the payload of its
first write (the `.md` file), empty if nothing was written. -/
def mdTextOf (g : GenOutput) : String :=
  ((g.writes.head?).map Prod.snd).getD ""

/-- The configuration slice `main` consults (src/main.py lines 407–409, 436):
`report.include_sections` (tested only for truthiness), `github.max_file_size`,
and `report.output_formats` (read at line 436 but never used afterward). -/
structure Config where
  includeSections : List String
  maxFileSize : Nat
  outputFormats : List String
deriving Repr, DecidableEq

/-- The defaults of `get_default_config` (src/main.py lines 342–357). -/
def defaultConfig : Config :=
  { includeSections := ["complexity", "halstead_metrics", "pylint_issues"],
    maxFileSize := 1048576,
    outputFormats := ["markdown", "html"] }

/-- The external collaborators of one run: `get_repo_info` (already resolved
to its result, `none` on any failure), `get_file_contents` as a function of
the path (`none` when the fetch fails), the metric engines, and the
`markdown.markdown` converter. -/
structure Collaborators where
  repoInfo : Option RepoInfo
  fetchFile : String → Option String
  engines : Engines
  mdConvert : String → String

/-- Python string-or-None truthiness of a fetched content
(`if file_contents:` at src/main.py line 414): false for `None` and for the
empty string. -/
def truthy : Option String → Bool
  | none => false
  | some s => !s.isEmpty

/-- State threaded through the analysis loop of `main` (src/main.py lines
400–432): the current value of the `file_contents` variable (`none` when it
is unbound or bound to Python `None` — either way `len(file_contents)`
raises), the accumulated `file_analyses` mapping in insertion order, the
trace of files fetched by the loop, and the transient pylint files on disk. -/
structure LoopState where
  fileContents : Option String
  analyses : List (String × AnalysisRecord)
  fetched : List String
  temps : List String
deriving Repr, DecidableEq

/-- The fetch-and-analyze part of one loop iteration (src/main.py lines
411–432), entered once the eligibility condition passed: the fetch at line
412 rebinds the `file_contents` variable (even to `None` on failure); a
truthy content is analyzed, and only a non-`None` analyzer result is inserted
into `file_analyses` (lines 414–432). -/
def afterFetch (col : Collaborators) (st : LoopState) (file : String) :
    LoopState × Bool :=
  match col.fetchFile file with
  | none => ({ st with fileContents := none, fetched := st.fetched ++ [file] }, true)
  | some t =>
    if t.isEmpty then
      ({ st with fileContents := some t, fetched := st.fetched ++ [file] }, true)
    else
      match analyze_code_complexity col.engines st.temps t file with
      | (none, temps2) =>
        ({ st with
            fileContents := some t
            fetched := st.fetched ++ [file]
            temps := temps2 }, true)
      | (some r, temps2) =>
        ({ st with
            fileContents := some t
            fetched := st.fetched ++ [file]
            temps := temps2
            analyses := st.analyses ++ [(file, r)] }, true)

/-- The eligibility condition of one loop iteration (src/main.py lines
407–409), evaluated left to right with short-circuiting: the name check, the
truthiness of `include_sections`, then `len(file_contents) <= max_file_size`
— where `file_contents` is whatever the variable holds from BEFORE this
iteration's fetch, and `len` raises (`false` outcome, aborting the run into
`main`'s outer `except`) when the variable is unbound or `None`. An eligible
file proceeds to `afterFetch`. -/
def processFile (cfg : Config) (col : Collaborators) (st : LoopState)
    (file : String) : LoopState × Bool :=
  if !(strEndsWith file ".py") then (st, true)
  else if cfg.includeSections.isEmpty then (st, true)
  else
    match st.fileContents with
    | none => (st, false)
    | some prev =>
      if cfg.maxFileSize < prev.length then (st, true)
      else afterFetch col st file

/-- The analysis loop over the listing, stopping at the first iteration that
raises. -/
def processFiles (cfg : Config) (col : Collaborators) :
    List String → LoopState → LoopState × Bool
  | [], st => (st, true)
  | f :: rest, st =>
    if (processFile cfg col st f).2 then
      processFiles cfg col rest (processFile cfg col st f).1
    else processFile cfg col st f

/-- Observable outcome of one `main` run: the `file_analyses` mapping
(`none` when metadata fetch failed or the loop raised), the files fetched by
the analysis loop, the report writes, the returned report paths, and the
directory and transient-file states. -/
structure RunOutcome where
  analyses : Option (List (String × AnalysisRecord))
  fetched : List String
  writes : List (String × String)
  reportPaths : Option (String × String)
  dirs : List String
  temps : List String
deriving Repr, DecidableEq

/-- Tail of `main` after the analysis loop (src/main.py lines 434–442): when
the loop completed, report generation runs only when `file_analyses` is
non-empty (truthy); a loop exception lands in the outer `except` at line 447
and nothing further is produced. -/
def finishRun (col : Collaborators) (info : RepoInfo) (ts : Timestamp)
    (dirs : List String) (st : LoopState) (ok : Bool) : RunOutcome :=
  if ok then
    if st.analyses.isEmpty then
      { analyses := some st.analyses, fetched := st.fetched, writes := [],
        reportPaths := none, dirs := dirs, temps := st.temps }
    else
      match (generate_markdown_report col.mdConvert info st.analyses ts dirs).res with
      | .returned mdP htmlP =>
        { analyses := some st.analyses, fetched := st.fetched,
          writes := (generate_markdown_report col.mdConvert info st.analyses ts dirs).writes,
          reportPaths := some (mdP, htmlP),
          dirs := (generate_markdown_report col.mdConvert info st.analyses ts dirs).dirs,
          temps := st.temps }
      | _ =>
        { analyses := some st.analyses, fetched := st.fetched,
          writes := (generate_markdown_report col.mdConvert info st.analyses ts dirs).writes,
          reportPaths := none,
          dirs := (generate_markdown_report col.mdConvert info st.analyses ts dirs).dirs,
          temps := st.temps }
  else
    { analyses := none, fetched := st.fetched, writes := [], reportPaths := none,
      dirs := dirs, temps := st.temps }

/-- The loop state as the analysis loop starts: the interactive preview
(src/main.py lines 386–397) binds the `file_contents` variable when the user
names a file (`fileToRead` non-empty, content possibly `None` on a failed
fetch); when the user skips, the variable stays unbound — collapsed with
bound-to-`None` into `Option.none`, since both make the loop's `len` call
raise. -/
def initialState (col : Collaborators) (fileToRead : String) : LoopState :=
  { fileContents := if fileToRead.isEmpty then none else col.fetchFile fileToRead,
    analyses := [], fetched := [], temps := [] }

/-- `main` (src/main.py lines 359–449). Everything after the URL prompt is
guarded by `if repo_info:` (line 380): on a metadata failure nothing runs,
no file is fetched or analyzed, and no report exists. Otherwise the analysis
loop runs over the listing from the initial state, and the tail decides
whether a report is generated. -/
def main (cfg : Config) (col : Collaborators) (fileToRead : String)
    (ts : Timestamp) (dirs : List String) : RunOutcome :=
  match col.repoInfo with
  | none =>
    { analyses := none, fetched := [], writes := [], reportPaths := none,
      dirs := dirs, temps := [] }
  | some info =>
    finishRun col info ts dirs
      (processFiles cfg col info.contents (initialState col fileToRead)).1
      (processFiles cfg col info.contents (initialState col fileToRead)).2

/-- The file names present in the AnalysisResult a run returned (empty when
the run produced none). -/
def runKeys (o : RunOutcome) : List String :=
  (o.analyses.getD []).map Prod.fst

/-- Result of `GitHubRepositoryAgent.analyze_repository`
(src/github_agent.py lines 63–92): the error marker, the
`analysis_results` mapping (which stores the analyzer's result even when it
is `None`), the files fetched, and the transient-file state. -/
structure AgentOutcome where
  isError : Bool
  analysis_results : List (String × Option AnalysisRecord)
  fetched : List String
  temps : List String
deriving Repr, DecidableEq

/-- The `for file in python_files[:3]:` loop of `analyze_repository`
(src/github_agent.py lines 83–87): fetch each file; when the content is
truthy, run the analyzer and store its result (possibly `None`) under the
file name. -/
def agentLoop (fetch : String → Option String) (eng : Engines) :
    List String → List (String × Option AnalysisRecord) → List String →
    List String → List (String × Option AnalysisRecord) × List String × List String
  | [], results, fetchedAcc, temps => (results, fetchedAcc, temps)
  | f :: rest, results, fetchedAcc, temps =>
    match fetch f with
    | none => agentLoop fetch eng rest results (fetchedAcc ++ [f]) temps
    | some t =>
      if t.isEmpty then agentLoop fetch eng rest results (fetchedAcc ++ [f]) temps
      else
        let p := analyze_code_complexity eng temps t f
        agentLoop fetch eng rest (results ++ [(f, p.1)]) (fetchedAcc ++ [f]) p.2

/-- `GitHubRepositoryAgent.analyze_repository` (src/github_agent.py lines
63–92): on a metadata failure it returns the error dict; otherwise it filters
the listing to names ending in `.py`, truncates to the first three, and runs
the per-file loop over exactly those. -/
def analyze_repository (repoInfo : Option RepoInfo)
    (fetch : String → Option String) (eng : Engines) : AgentOutcome :=
  match repoInfo with
  | none => { isError := true, analysis_results := [], fetched := [], temps := [] }
  | some info =>
    let pyFiles := info.contents.filter (fun f => strEndsWith f ".py")
    let r := agentLoop fetch eng (pyFiles.take 3) [] [] []
    { isError := false, analysis_results := r.1, fetched := r.2.1, temps := r.2.2 }

/-! Concrete collaborator instances used to evaluate the model on explicit
inputs. -/

/-- Engines whose complexity stage succeeds with one symbol, whose Halstead
stage raises, and whose lint run succeeds. -/
def demoEngines : Engines :=
  { cc := fun _ => .ok [⟨"f", 3⟩],
    halstead := fun _ => .raises,
    lint := fun _ _ => .ok "issues" }

/-- A small repository with two Python entries. -/
def demoInfo : RepoInfo :=
  { name := "demo", description := none, language := some "Python", stars := 5,
    contents := ["a.py", "big.py"] }

/-- A fixed clock value. -/
def demoTs : Timestamp := ⟨"2024-01-01 00:00:00", "20240101_000000"⟩

/-- A metrics record with one symbol, a non-trivial Halstead triple and no
lint text. -/
def demoRec : AnalysisRecord :=
  { cyclomatic_complexity := [⟨"f", 3⟩],
    halstead_metrics := ⟨10, 2, 12⟩,
    pylint_issues := "" }

/-- A second metrics record, distinguishable from `demoRec`. -/
def demoRec2 : AnalysisRecord :=
  { cyclomatic_complexity := [],
    halstead_metrics := ⟨0, 0, 0⟩,
    pylint_issues := "x" }

/-- A configuration with a 3-byte size ceiling. -/
def c3cfg : Config :=
  { includeSections := ["complexity"], maxFileSize := 3,
    outputFormats := ["markdown", "html"] }

/-- Collaborators for the size-limit run: `a.py` fetches one byte, `big.py`
fetches five bytes — over `c3cfg`'s ceiling. -/
def c3col : Collaborators :=
  { repoInfo := some demoInfo,
    fetchFile := fun f =>
      if f = "a.py" then some "x" else if f = "big.py" then some "aaaaa" else none,
    engines := demoEngines,
    mdConvert := id }

/-- Collaborators whose complexity engine always raises. -/
def c1col : Collaborators :=
  { repoInfo := some demoInfo,
    fetchFile := fun _ => some "x",
    engines := { cc := fun _ => .raises, halstead := fun _ => .retObj none none none,
                 lint := fun _ _ => .ok "issues" },
    mdConvert := id }

/-- Collaborators whose complexity engine succeeds and whose Halstead engine
raises. -/
def c2col : Collaborators :=
  { repoInfo := some demoInfo,
    fetchFile := fun _ => some "x",
    engines := demoEngines,
    mdConvert := id }

/-- A repository with an empty entry listing. -/
def c8info : RepoInfo :=
  { name := "empty", description := none, language := none, stars := 0,
    contents := [] }

/-- Collaborators serving the empty repository. -/
def c8col : Collaborators :=
  { repoInfo := some c8info,
    fetchFile := fun _ => none,
    engines := demoEngines,
    mdConvert := id }

/-- A listing with five Python files (and one non-Python entry) for the agent
front-end. -/
def agentInfo : RepoInfo :=
  { name := "many", description := none, language := none, stars := 0,
    contents := ["a.py", "b.py", "c.txt", "d.py", "e.py", "f.py"] }

/-- A fetch oracle that fails on `b.py` and returns text otherwise. -/
def agentFetch : String → Option String :=
  fun f => if f = "b.py" then none else some "x"

/-! Helper lemmas. -/

/-- Every failure outcome of the Halstead step yields the all-zero triple. -/
theorem halsteadData_of_failed (o : HalsteadOutcome)
    (h : halsteadFailed o = true) : halsteadData o = ⟨0, 0, 0⟩ := by
  cases o with
  | raises => rfl
  | retList l => cases l <;> rfl
  | retObj v d e =>
    simp only [halsteadFailed, Bool.and_eq_true, Option.isNone_iff_eq_none] at h
    obtain ⟨hv, hd, he⟩ := h
    subst hv; subst hd; subst he
    rfl

/-- If the analyzer returned a record, the complexity engine succeeded on
that text. -/
theorem analyze_some_cc (eng : Engines) (temps : List String)
    (t fn : String) (r : AnalysisRecord)
    (h : (analyze_code_complexity eng temps t fn).1 = some r) :
    ∃ es, eng.cc t = CCOutcome.ok es := by
  unfold analyze_code_complexity at h
  cases hcc : eng.cc t with
  | raises => rw [hcc] at h; simp at h
  | ok es => exact ⟨es, rfl⟩

/-- Any name present in the analyses after the fetch-and-analyze step was
either already present, or is the processed file and its fetched text passed
the complexity stage. -/
theorem afterFetch_mem_keys (col : Collaborators) (st : LoopState)
    (file g : String)
    (hg : g ∈ ((afterFetch col st file).1.analyses.map Prod.fst)) :
    g ∈ st.analyses.map Prod.fst ∨
      (g = file ∧ ∃ t es, col.fetchFile file = some t ∧
        col.engines.cc t = CCOutcome.ok es) := by
  unfold afterFetch at hg
  split at hg
  · exact Or.inl hg
  · rename_i t hf
    split at hg
    · exact Or.inl hg
    · split at hg
      · exact Or.inl hg
      · rename_i r temps2 hp
        have hg2 : g ∈ (st.analyses ++ [(file, r)]).map Prod.fst := hg
        simp only [List.map_append, List.map_cons, List.map_nil,
          List.mem_append, List.mem_singleton] at hg2
        rcases hg2 with hg2 | hg2
        · exact Or.inl hg2
        · have h1 : (analyze_code_complexity col.engines st.temps t file).1 = some r := by
            rw [hp]
          obtain ⟨es, hes⟩ := analyze_some_cc col.engines st.temps t file r h1
          exact Or.inr ⟨hg2, t, es, hf, hes⟩

/-- Any name present in the analyses after one loop iteration was either
already present, or is the processed file and its fetched text passed the
complexity stage. -/
theorem processFile_mem_keys (cfg : Config) (col : Collaborators)
    (st : LoopState) (file g : String)
    (hg : g ∈ ((processFile cfg col st file).1.analyses.map Prod.fst)) :
    g ∈ st.analyses.map Prod.fst ∨
      (g = file ∧ ∃ t es, col.fetchFile file = some t ∧
        col.engines.cc t = CCOutcome.ok es) := by
  unfold processFile at hg
  split at hg
  · exact Or.inl hg
  · split at hg
    · exact Or.inl hg
    · split at hg
      · exact Or.inl hg
      · split at hg
        · exact Or.inl hg
        · exact afterFetch_mem_keys col st file g hg

/-- Any name present in the analyses after the whole loop was either present
at the start, or its fetched text passed the complexity stage. -/
theorem processFiles_mem_keys (cfg : Config) (col : Collaborators)
    (L : List String) : ∀ (st : LoopState) (g : String),
    g ∈ ((processFiles cfg col L st).1.analyses.map Prod.fst) →
    g ∈ st.analyses.map Prod.fst ∨
      ∃ t es, col.fetchFile g = some t ∧ col.engines.cc t = CCOutcome.ok es := by
  induction L with
  | nil => intro st g hg; exact Or.inl hg
  | cons f rest ih =>
    intro st g hg
    unfold processFiles at hg
    by_cases hb : (processFile cfg col st f).2 = true
    · rw [if_pos hb] at hg
      rcases ih _ g hg with h | h
      · rcases processFile_mem_keys cfg col st f g h with h1 | ⟨hgf, t, es, hf, hc⟩
        · exact Or.inl h1
        · exact Or.inr ⟨t, es, by rw [hgf]; exact hf, hc⟩
      · exact Or.inr h
    · rw [if_neg hb] at hg
      rcases processFile_mem_keys cfg col st f g hg with h1 | ⟨hgf, t, es, hf, hc⟩
      · exact Or.inl h1
      · exact Or.inr ⟨t, es, by rw [hgf]; exact hf, hc⟩

/-- The run returns no analysis key that was not in the loop's final state. -/
theorem runKeys_finishRun (col : Collaborators) (info : RepoInfo)
    (ts : Timestamp) (dirs : List String) (st : LoopState) (ok : Bool)
    (g : String) (hg : g ∈ runKeys (finishRun col info ts dirs st ok)) :
    g ∈ st.analyses.map Prod.fst := by
  unfold finishRun runKeys at hg
  split at hg
  · split at hg
    · exact hg
    · split at hg
      · exact hg
      · exact hg
  · simp at hg

/-- `os.makedirs` with `exist_ok=True` never raises: it returns the directory
state unchanged when the directory exists, extended otherwise. -/
theorem os_makedirs_exist_ok (ds : List String) (d : String) :
    os_makedirs true ds d =
      Except.ok (if ds.contains d then ds else ds ++ [d]) := by
  unfold os_makedirs
  split <;> simp [*]

/-- The agent loop fetches exactly the files it is given, in order. -/
theorem agentLoop_fetched (fetch : String → Option String) (eng : Engines)
    (L : List String) : ∀ (results : List (String × Option AnalysisRecord))
    (fetchedAcc temps : List String),
    (agentLoop fetch eng L results fetchedAcc temps).2.1 = fetchedAcc ++ L := by
  induction L with
  | nil => intro results fetchedAcc temps; simp [agentLoop]
  | cons f rest ih =>
    intro results fetchedAcc temps
    unfold agentLoop
    cases hf : fetch f with
    | none => simp [ih]
    | some t =>
      by_cases ht : t.isEmpty
      · simp [ht, ih]
      · simp [ht, ih]

/-- The keys stored by the agent loop are exactly the processed files whose
fetched content is truthy, in order. -/
theorem agentLoop_keys (fetch : String → Option String) (eng : Engines)
    (L : List String) : ∀ (results : List (String × Option AnalysisRecord))
    (fetchedAcc temps : List String),
    (agentLoop fetch eng L results fetchedAcc temps).1.map Prod.fst =
      results.map Prod.fst ++ L.filter (fun f => truthy (fetch f)) := by
  induction L with
  | nil => intro results fetchedAcc temps; simp [agentLoop]
  | cons f rest ih =>
    intro results fetchedAcc temps
    unfold agentLoop
    cases hf : fetch f with
    | none => simp [hf, ih, truthy, List.filter_cons]
    | some t =>
      by_cases ht : t.isEmpty
      · simp [hf, ht, ih, truthy, List.filter_cons]
      · simp [hf, ht, ih, truthy, List.filter_cons]

/-! Claim theorems. -/

/-- Claim C3 (evidence of the code defect): the size limit is NOT re-checked
after the fetch. In a run with `max_file_size = 3` where `big.py` fetches a
five-byte content, `big.py` still appears in the AnalysisResult, because the
only size check (src/main.py line 409) reads the `file_contents` variable
left over from the previous iteration instead of the entry being tested, and
no post-fetch re-check exists. The claim says a file whose fetched byte
length exceeds `max_file_size` is excluded regardless of content. -/
theorem c3_stale_size_check_admits_oversized_file :
    runKeys (GRA.main c3cfg c3col "a.py" demoTs []) = ["a.py", "big.py"]
    ∧ c3col.fetchFile "big.py" = some "aaaaa"
    ∧ c3cfg.maxFileSize < ("aaaaa" : String).length := by
  refine ⟨by decide, by decide, by decide⟩

/-- Claim C4: when fetching the repository metadata fails, the run produces
no AnalysisResult, fetches and analyzes no file, writes no report file
(markdown or styled), and returns no report paths — for every configuration,
fetch oracle, engine set, converter, user input, clock and directory state. -/
theorem c4_metadata_failure_no_report (cfg : Config)
    (fetch : String → Option String) (eng : Engines) (conv : String → String)
    (fileToRead : String) (ts : Timestamp) (dirs : List String) :
    GRA.main cfg ⟨none, fetch, eng, conv⟩ fileToRead ts dirs =
      { analyses := none, fetched := [], writes := [], reportPaths := none,
        dirs := dirs, temps := [] } := rfl

/-- Claim C5: report generation is a deterministic function of the metadata
and the analyses — two invocations on the same inputs with the generation
timestamp held constant produce byte-identical markdown text (and identical
writes and paths altogether). -/
theorem c5_render_deterministic (conv : String → String) (info : RepoInfo)
    (analyses : List (String × AnalysisRecord)) (ts1 ts2 : Timestamp)
    (dirs : List String) (h : ts1 = ts2) :
    mdTextOf (generate_markdown_report conv info analyses ts1 dirs) =
      mdTextOf (generate_markdown_report conv info analyses ts2 dirs)
    ∧ generate_markdown_report conv info analyses ts1 dirs =
      generate_markdown_report conv info analyses ts2 dirs := by
  subst h
  exact ⟨rfl, rfl⟩

/-- Witness for C5 at a concrete input. -/
theorem c5_witness :
    demoTs = demoTs
    ∧ mdTextOf (generate_markdown_report id demoInfo [("a.py", demoRec)] demoTs []) =
      mdTextOf (generate_markdown_report id demoInfo [("a.py", demoRec)] demoTs []) :=
  ⟨rfl, (c5_render_deterministic id demoInfo [("a.py", demoRec)] demoTs demoTs [] rfl).1⟩

set_option maxRecDepth 8000 in
/-- Claim C6 (evidence of the code defect): the report does NOT contain one
section per analyzed file. The `return` at src/main.py line 304 sits inside
the `with` block inside the per-file loop, so `generate_markdown_report`
returns during its first iteration: its output on any mapping `e :: rest` is
identical to its output on `[e]`, and on a concrete two-file mapping the
written markdown contains exactly one `### File:` section heading although
two files were analyzed. The claim says
the written report has exactly one section per analyzed file. -/
theorem c6_report_truncated_after_first_file :
    (∀ (conv : String → String) (info : RepoInfo) (ts : Timestamp)
       (dirs : List String) (e : String × AnalysisRecord)
       (rest : List (String × AnalysisRecord)),
       generate_markdown_report conv info (e :: rest) ts dirs =
         generate_markdown_report conv info [e] ts dirs)
    ∧ occurrences ("### File:".data)
        (mdTextOf (generate_markdown_report id demoInfo
          [("a.py", demoRec), ("b.py", demoRec2)] demoTs [])).data = 1 := by
  constructor
  · intro conv info ts dirs e rest
    obtain ⟨f, a⟩ := e
    rfl
  · decide

/-- Claim C7 (evidence of the code defect): the transient file
`temp_{filename}` is NOT removed on every exit path of the lint step. When
the pylint run raises, `analyze_with_pylint` returns the fallback string from
its `except` (src/main.py lines 227–229) with the temp file still on disk —
`os.remove` (line 224) lies on the success path only and there is no
`finally`. The success path does remove it. -/
theorem c7_temp_file_left_on_lint_failure :
    analyze_with_pylint [] "a.py" (LintOutcome.raises "boom") =
      ("Unable to perform Pylint analysis: boom", ["temp_a.py"])
    ∧ analyze_with_pylint [] "a.py" (LintOutcome.ok "out") = ("out", []) := by
  exact ⟨by decide, by decide⟩

/-- Claim C1: when the complexity stage fails on a file's fetched text, the
whole analyze call for that file fails (returns `None`, the code's rendering
of `AnalysisFailure`), the file is absent from the AnalysisResult of every
run over these collaborators, and the loop iteration that processed it
returns normally with the accumulated analyses unchanged — the run continues
with the remaining files. -/
theorem c1_complexity_failure_excludes_file (cfg : Config)
    (col : Collaborators) (f t : String) (hf : col.fetchFile f = some t)
    (hcc : col.engines.cc t = CCOutcome.raises) :
    (∀ (temps : List String) (fn : String),
      (analyze_code_complexity col.engines temps t fn).1 = none)
    ∧ (∀ (fileToRead : String) (ts : Timestamp) (dirs : List String),
        f ∉ runKeys (GRA.main cfg col fileToRead ts dirs))
    ∧ (∀ (st : LoopState) (prev : String), st.fileContents = some prev →
        prev.length ≤ cfg.maxFileSize → cfg.includeSections ≠ [] →
        strEndsWith f ".py" = true → t.isEmpty = false →
        processFile cfg col st f =
          ({ st with fileContents := some t, fetched := st.fetched ++ [f] }, true)) := by
  refine ⟨?_, ?_, ?_⟩
  · intro temps fn
    simp [analyze_code_complexity, hcc]
  · intro fileToRead ts dirs hmem
    unfold GRA.main at hmem
    rcases hri : col.repoInfo with _ | info
    · rw [hri] at hmem
      exact absurd (hmem : f ∈ ([] : List String)) (List.not_mem_nil f)
    · rw [hri] at hmem
      have hm2 : f ∈ runKeys (finishRun col info ts dirs
          (processFiles cfg col info.contents (initialState col fileToRead)).1
          (processFiles cfg col info.contents (initialState col fileToRead)).2) := hmem
      have hk := runKeys_finishRun col info ts dirs _ _ f hm2
      rcases processFiles_mem_keys cfg col info.contents
          (initialState col fileToRead) f hk with h | ⟨t2, es, hf2, hc2⟩
      · simp [initialState] at h
      · rw [hf] at hf2
        obtain rfl : t = t2 := Option.some_inj.mp hf2
        rw [hcc] at hc2
        exact absurd hc2 (by simp)
  · intro st prev hfc hsz hinc hpy hne
    have h2 : cfg.includeSections.isEmpty = false := by
      cases hI : cfg.includeSections with
      | nil => exact absurd hI hinc
      | cons a l => rfl
    have h3 : ¬ cfg.maxFileSize < prev.length := not_lt.mpr hsz
    simp [processFile, afterFetch, analyze_code_complexity, hpy, h2, hfc, h3,
      hf, hne, hcc]

/-- Witness for C1 at a concrete input. -/
theorem c1_witness :
    c1col.fetchFile "a.py" = some "x"
    ∧ c1col.engines.cc "x" = CCOutcome.raises
    ∧ "a.py" ∉ runKeys (GRA.main defaultConfig c1col "" demoTs []) :=
  ⟨rfl, rfl,
    (c1_complexity_failure_excludes_file defaultConfig c1col "a.py" "x"
      rfl rfl).2.1 "" demoTs []⟩

/-- Claim C2: when the volume-metrics (Halstead) step fails — the engine
raising, or returning an empty or ambiguous (list) result — the analyzer
substitutes the zero triple and still returns a record (the failure never
aborts the analyze call), with the complexity entries and the lint text
intact; and the loop iteration inserts the file with that record into the
AnalysisResult. -/
theorem c2_halstead_failure_degrades (cfg : Config) (col : Collaborators)
    (st : LoopState) (f t prev : String) (entries : List CCEntry)
    (hcc : col.engines.cc t = CCOutcome.ok entries)
    (hh : halsteadFailed (col.engines.halstead t) = true)
    (hf : col.fetchFile f = some t) (hne : t.isEmpty = false)
    (hfc : st.fileContents = some prev) (hsz : prev.length ≤ cfg.maxFileSize)
    (hinc : cfg.includeSections ≠ []) (hpy : strEndsWith f ".py" = true) :
    (analyze_code_complexity col.engines st.temps t f).1 =
      some { cyclomatic_complexity := entries,
             halstead_metrics := ⟨0, 0, 0⟩,
             pylint_issues := (analyze_with_pylint st.temps f (col.engines.lint t f)).1 }
    ∧ processFile cfg col st f =
        ({ st with
            fileContents := some t
            fetched := st.fetched ++ [f]
            temps := (analyze_with_pylint st.temps f (col.engines.lint t f)).2
            analyses := st.analyses ++ [(f,
              { cyclomatic_complexity := entries,
                halstead_metrics := ⟨0, 0, 0⟩,
                pylint_issues := (analyze_with_pylint st.temps f (col.engines.lint t f)).1 })] },
          true) := by
  have hz : halsteadData (col.engines.halstead t) = ⟨0, 0, 0⟩ :=
    halsteadData_of_failed _ hh
  constructor
  · simp [analyze_code_complexity, hcc, hz]
  · have h2 : cfg.includeSections.isEmpty = false := by
      cases hI : cfg.includeSections with
      | nil => exact absurd hI hinc
      | cons a l => rfl
    have h3 : ¬ cfg.maxFileSize < prev.length := not_lt.mpr hsz
    simp [processFile, afterFetch, analyze_code_complexity, hpy, h2, hfc, h3,
      hf, hne, hcc, hz]

/-- Witness for C2 at a concrete input. -/
theorem c2_witness :
    c2col.engines.cc "x" = CCOutcome.ok [⟨"f", 3⟩]
    ∧ halsteadFailed (c2col.engines.halstead "x") = true
    ∧ (analyze_code_complexity c2col.engines [] "x" "a.py").1 =
        some { cyclomatic_complexity := [⟨"f", 3⟩],
               halstead_metrics := ⟨0, 0, 0⟩,
               pylint_issues := "issues" } := by
  refine ⟨rfl, rfl, ?_⟩
  have h := c2_halstead_failure_degrades defaultConfig c2col
    ⟨some "", [], [], []⟩ "a.py" "x" "" [⟨"f", 3⟩]
    rfl rfl rfl (by decide) rfl (by decide) (by decide) (by decide)
  exact h.1

/-- Claim C8: a run over a repository with an empty entry listing succeeds
(no iteration raises) and returns an empty AnalysisResult — and performs no
fetch, no write and no report. -/
theorem c8_empty_listing_run_succeeds (cfg : Config) (col : Collaborators)
    (info : RepoInfo) (fileToRead : String) (ts : Timestamp)
    (dirs : List String) (hinfo : col.repoInfo = some info)
    (hempty : info.contents = []) :
    GRA.main cfg col fileToRead ts dirs =
      { analyses := some [], fetched := [], writes := [], reportPaths := none,
        dirs := dirs, temps := [] } := by
  have h1 : GRA.main cfg col fileToRead ts dirs =
      finishRun col info ts dirs
        (processFiles cfg col info.contents (initialState col fileToRead)).1
        (processFiles cfg col info.contents (initialState col fileToRead)).2 := by
    unfold GRA.main
    rw [hinfo]
  rw [h1, hempty]
  rfl

/-- Witness for C8 at a concrete input. -/
theorem c8_witness :
    c8col.repoInfo = some c8info ∧ c8info.contents = []
    ∧ GRA.main defaultConfig c8col "" demoTs [] =
      { analyses := some [], fetched := [], writes := [], reportPaths := none,
        dirs := [], temps := [] } :=
  ⟨rfl, rfl,
    c8_empty_listing_run_succeeds defaultConfig c8col c8info "" demoTs [] rfl rfl⟩

/-- Claim C9: on a non-empty analyses mapping, report generation performs
exactly two writes — the markdown file and the styled HTML document — whose
paths are `{repo_name}_analysis_{timestamp}` with the format-specific
extensions under the fixed `repository_analysis` directory, returns exactly
those two paths, and directory creation is idempotent: creating the output
directory when it already exists is not an error and leaves the state
unchanged. -/
theorem c9_output_writer_two_files (conv : String → String) (info : RepoInfo)
    (ts : Timestamp) (dirs : List String) (e : String × AnalysisRecord)
    (rest : List (String × AnalysisRecord)) :
    (generate_markdown_report conv info (e :: rest) ts dirs).res =
      GenResult.returned (reportFileName info ts ".md") (reportFileName info ts ".html")
    ∧ (generate_markdown_report conv info (e :: rest) ts dirs).writes.map Prod.fst =
      [reportFileName info ts ".md", reportFileName info ts ".html"]
    ∧ (generate_markdown_report conv info (e :: rest) ts dirs).writes.length = 2
    ∧ (∀ ds : List String, ds.contains "repository_analysis" = true →
        os_makedirs true ds "repository_analysis" = Except.ok ds) := by
  obtain ⟨f, a⟩ := e
  have hmk := os_makedirs_exist_ok dirs "repository_analysis"
  refine ⟨?_, ?_, ?_, ?_⟩
  · unfold generate_markdown_report reportBody
    rw [hmk]
  · unfold generate_markdown_report reportBody
    rw [hmk]
    rfl
  · unfold generate_markdown_report reportBody
    rw [hmk]
    rfl
  · intro ds hds
    rw [os_makedirs_exist_ok ds "repository_analysis", if_pos hds]

/-- Witness for C9 at a concrete input. -/
theorem c9_witness :
    (generate_markdown_report id demoInfo [("a.py", demoRec)] demoTs []).writes.map
      Prod.fst =
      [reportFileName demoInfo demoTs ".md", reportFileName demoInfo demoTs ".html"]
    ∧ (["repository_analysis"] : List String).contains "repository_analysis" = true
    ∧ os_makedirs true ["repository_analysis"] "repository_analysis" =
        Except.ok ["repository_analysis"] := by
  refine ⟨?_, by decide, ?_⟩
  · exact (c9_output_writer_two_files id demoInfo demoTs [] ("a.py", demoRec) []).2.1
  · exact (c9_output_writer_two_files id demoInfo demoTs [] ("a.py", demoRec) []).2.2.2
      ["repository_analysis"] (by decide)

/-- Claim C10: the agent front-end fetches exactly the first three `.py`
entries of the listing, in listing order, and its `analysis_results` mapping
holds exactly the subset of those whose fetch produced truthy content (still
in listing order) — no Python file beyond the first three is ever fetched,
analyzed, or present in the mapping. -/
theorem c10_agent_first_three_python_files (repoInfo : Option RepoInfo)
    (fetch : String → Option String) (eng : Engines) (info : RepoInfo)
    (h : repoInfo = some info) :
    (analyze_repository repoInfo fetch eng).fetched =
      (info.contents.filter (fun f => strEndsWith f ".py")).take 3
    ∧ (analyze_repository repoInfo fetch eng).analysis_results.map Prod.fst =
      ((info.contents.filter (fun f => strEndsWith f ".py")).take 3).filter
        (fun f => truthy (fetch f))
    ∧ (∀ g, g ∈ (analyze_repository repoInfo fetch eng).analysis_results.map Prod.fst →
        g ∈ (info.contents.filter (fun f => strEndsWith f ".py")).take 3) := by
  subst h
  refine ⟨?_, ?_, ?_⟩
  · simpa [analyze_repository] using
      agentLoop_fetched fetch eng
        ((info.contents.filter (fun f => strEndsWith f ".py")).take 3) [] [] []
  · simpa [analyze_repository] using
      agentLoop_keys fetch eng
        ((info.contents.filter (fun f => strEndsWith f ".py")).take 3) [] [] []
  · intro g hg
    have hk : (analyze_repository (some info) fetch eng).analysis_results.map Prod.fst =
        ((info.contents.filter (fun f => strEndsWith f ".py")).take 3).filter
          (fun f => truthy (fetch f)) := by
      simpa [analyze_repository] using
        agentLoop_keys fetch eng
          ((info.contents.filter (fun f => strEndsWith f ".py")).take 3) [] [] []
    rw [hk] at hg
    exact List.mem_of_mem_filter hg

/-- Witness for C10 at a concrete input. -/
theorem c10_witness :
    some agentInfo = some agentInfo
    ∧ (analyze_repository (some agentInfo) agentFetch demoEngines).fetched =
      (agentInfo.contents.filter (fun f => strEndsWith f ".py")).take 3
    ∧ (analyze_repository (some agentInfo) agentFetch demoEngines).analysis_results.map
        Prod.fst =
      ((agentInfo.contents.filter (fun f => strEndsWith f ".py")).take 3).filter
        (fun f => truthy (agentFetch f)) :=
  ⟨rfl,
    (c10_agent_first_three_python_files (some agentInfo) agentFetch demoEngines
      agentInfo rfl).1,
    (c10_agent_first_three_python_files (some agentInfo) agentFetch demoEngines
      agentInfo rfl).2.1⟩

end GRA
